import Mathlib

/-!
# Verification of the `ost-parser` repository

Shallow embedding of `ost_parser` (EVLA observing-script/VCI parser and
L302 mixer-frequency validator) in Lean 4, together with proofs and
refutations of the specification claims.

Conventions of the embedding:
* Python floats are modelled as exact rationals (`ℚ`); all frequencies are
  in Hz in base units, matching the source's unit discipline (astropy
  `.to("km")` is division by 1000, `.to("GHz")` division by `1e9`,
  `.value` the identity on base-unit magnitudes).
* Fallible Python code is modelled with `Except PyErr`; each Python
  exception class used by the source has a constructor.
* Regex captures are kept as the strings they capture where the source
  uses them as strings (f-string interpolation), and converted where the
  source calls `int`/`float`.
-/

set_option maxRecDepth 4000

namespace OstParser

/-- Python exception classes raised by the modelled code paths. -/
inductive PyErr where
  /-- `ParseError(msg)` — the repository's structural-parse error
  (a subclass of `RuntimeError`). -/
  | parseError (msg : String)
  /-- `ValueError` (e.g. `max([])`, bad `_scan` suffix, the mixer
  classifier's trailing `raise ValueError`). -/
  | valueError
  /-- `KeyError` from a dict lookup. -/
  | keyError
  /-- `AssertionError` from an `assert` statement. -/
  | assertionError
  /-- `IndexError` from indexing past the end of a list. -/
  | indexError
  /-- `ZeroDivisionError`. -/
  | zeroDivisionError
  /-- `AttributeError` (e.g. calling `.to("km")` on a plain float). -/
  | attributeError
  /-- astropy's `UnitConversionError` (comparing a dimensioned
  `Quantity` with a bare float). -/
  | unitConversionError
  deriving DecidableEq, Repr

/-- Fail-fast effectful map: the semantics of a Python list
comprehension (or dict comprehension over distinct keys) whose body can
raise — elements are evaluated left to right and the first exception
propagates. -/
def exMapM {α β : Type} (f : α → Except PyErr β) :
    List α → Except PyErr (List β)
  | [] => .ok []
  | x :: xs => do
    let y ← f x
    let ys ← exMapM f xs
    .ok (y :: ys)

instance {ε α : Type} [DecidableEq ε] [DecidableEq α] :
    DecidableEq (Except ε α)
  | .error e, .error f => decidable_of_iff (e = f) (by simp)
  | .error _, .ok _ => .isFalse (by simp)
  | .ok _, .error _ => .isFalse (by simp)
  | .ok a, .ok b => decidable_of_iff (a = b) (by simp)

/-- `MixerFlag` enum of `analysis/l302_mixer.py`. -/
inductive MixerFlag where
  | OKAY
  | BELOW
  | ABOVE
  | FAIL
  deriving DecidableEq, Repr

/-- `mixer_flag_from_freqs(f_opt, f_min, f_max)` of
`analysis/l302_mixer.py`: the chained comparisons `f_opt < f_min < f_max`
and `f_min < f_max < f_opt` are conjunctions; the final `else` branch
raises `ValueError`. -/
def mixer_flag_from_freqs (f_opt f_min f_max : ℚ) : Except PyErr MixerFlag :=
  if f_min > f_max then .ok .FAIL
  else if f_opt < f_min ∧ f_min < f_max then .ok .BELOW
  else if f_min < f_max ∧ f_max < f_opt then .ok .ABOVE
  else if f_min ≤ f_opt ∧ f_opt ≤ f_max then .ok .OKAY
  else .error .valueError

/-! ## VCI documents (`vci.py`) -/

/-- The attributes of a `baseBand` XML element exposed by `BaseBand` in
`vci.py` that the analysis reads (`name`, `bw`, `inQuant`).  A `SubBand`
carries an explicit reference to these (the source stores the owning
`BaseBand` instance on the subband for pickling reasons). -/
structure BaseBandInfo where
  name : String
  /-- `bw` attribute, Hz. -/
  bw : ℚ
  /-- `inQuant` attribute (3 or 8 in practice). -/
  inQuant : ℤ
  deriving DecidableEq, Repr

/-- `BaseBand.is_3bit`. -/
def BaseBandInfo.is_3bit (b : BaseBandInfo) : Bool := b.inQuant = 3

/-- `BaseBand.is_8bit`. -/
def BaseBandInfo.is_8bit (b : BaseBandInfo) : Bool := b.inQuant = 8

/-- A `subBand` record of `vci.py` with the attributes and derived
quantities the analysis reads.  `element.polProducts...` lookups are
modelled as stored fields.  `freqOpt` (which involves `np.pi` and a
square root) is not needed by any claim and is not modelled. -/
structure SubBand where
  /-- Explicit reference to the owning baseband (`self.baseband`). -/
  baseband : BaseBandInfo
  /-- `npol`: number of `pp` elements (1 when `polProducts.pp` is absent). -/
  npol : ℕ
  /-- `nchan`: `spectralChannels` of the first `pp` (−1 when absent). -/
  nchan : ℤ
  /-- `recirc`: `blbProdIntegration@recirculation`. -/
  recirc : ℤ
  /-- `minIntegTime` in seconds (source scales µs by 1e−6). -/
  minIntegTime : ℚ
  /-- `integFac["cc"]` (1 when the attribute is absent). -/
  ccFac : ℤ
  /-- `integFac["lta"]` (1 when the attribute is absent). -/
  ltaFac : ℤ
  /-- `integFac["cbe"]` (1 when the attribute is absent). -/
  cbeFac : ℤ
  /-- `bw` attribute, Hz. -/
  bw : ℚ
  /-- `centralFreq` attribute, Hz. -/
  cf : ℚ
  /-- `swIndex` attribute. -/
  swIndex : ℤ
  /-- `sbid` attribute. -/
  sbid : ℤ
  /-- `nblb`: length of the derived baseline-board-pair list. -/
  nblb : ℕ
  /-- Modelled from the spec: `SubBand.is_valid` is referenced by
  `Execution.iter_valid_unique_subbands` and by the tests but its
  definition is missing from the `SubBand` class in `src/ost_parser/vci.py`;
  per the spec it is "false for malformed/placeholder subbands, e.g. zero
  polarization products", modelled here as stored record data. -/
  is_valid : Bool
  deriving DecidableEq, Repr

/-- `SubBand.inttime`: `minIntegTime * recirc * cc * lta * cbe`, seconds. -/
def SubBand.inttime (s : SubBand) : ℚ :=
  s.minIntegTime * s.recirc * (s.ccFac * s.ltaFac * s.cbeFac)

/-- `SubBand.freqSamp = 2 * bw`, Hz. -/
def SubBand.freqSamp (s : SubBand) : ℚ := 2 * s.bw

/-- A `baseBand` element together with its owned `subBand` elements. -/
structure BaseBand where
  info : BaseBandInfo
  subBands : List SubBand
  deriving DecidableEq, Repr

/-- A parsed `.vci` document: the `configId` attribute of `subArray` and
the ordered `baseBand` elements of `stationInputOutput`. -/
structure VCIfile where
  configId : String
  baseBands : List BaseBand
  deriving DecidableEq, Repr

/-- Value of a maximal digit run, most significant digit first. -/
def digitsToNat (ds : List Char) : ℕ :=
  ds.foldl (fun a c => 10 * a + (c.toNat - 48)) 0

/-- One attempt of the pattern `_scan(\d+)` at the head of the character
list: requires the literal `_scan` followed by at least one digit; the
capture is the maximal digit run (greedy `\d+`). -/
def matchScanSuffix : List Char → Option ℕ
  | '_' :: 's' :: 'c' :: 'a' :: 'n' :: rest =>
    let ds := rest.takeWhile Char.isDigit
    if ds.isEmpty then none else some (digitsToNat ds)
  | _ => none

/-- Scan left to right for the first position where `_scan(\d+)` matches. -/
def scanSearchAux : List Char → Option ℕ
  | [] => none
  | c :: rest =>
    match matchScanSuffix (c :: rest) with
    | some n => some n
    | none => scanSearchAux rest

/-- `VCI.scanNum` of `vci.py`: `re.search` of `.+?_scan(\d+)` over the
`configId` attribute (the lazy `.+?` forces at least one character before
`_scan`, so the match is sought from position 1 on); no match raises
`ValueError("Invalid scan name convention: ...")`. -/
def pyScanNum (configId : String) : Except PyErr ℕ :=
  match configId.data with
  | [] => .error .valueError
  | _ :: rest =>
    match scanSearchAux rest with
    | some n => .ok n
    | none => .error .valueError

/-- `VCI.scanNum` applied to a parsed document. -/
def VCIfile.scanNum (v : VCIfile) : Except PyErr ℕ := pyScanNum v.configId

/-! ## LOIF setup and offset records (`core.py`) -/

/-- A frequency field captured by the `LoIfSetup` record patterns: either
a literal float (MHz) or an arithmetic expression containing the
`tuningOffsetMHz` token, modelled as a function of the substituted
offset value (the source substitutes the offset text and evaluates the
resulting arithmetic expression). -/
inductive FreqField where
  | lit (v : ℚ)
  | offsetExpr (f : ℚ → ℚ)

/-- Whether the field textually contains the `tuningOffsetMHz` token. -/
def FreqField.usesOffset : FreqField → Bool
  | .lit _ => false
  | .offsetExpr _ => true

/-- `LoIfSetup.parse_frequency`: evaluate the field (substituting the
tuning offset when the token is present) and scale MHz → Hz. -/
def parse_frequency (tuning_offset : ℚ) : FreqField → ℚ
  | .lit v => v * 1000000
  | .offsetExpr f => f tuning_offset * 1000000

/-- The capture group of one `LoIfSetup(...)` record:
`(index digits, mode text, receiver band, f1, f2, f3, f4, flag)`. -/
structure LoIfGroup where
  /-- `group[0]`: the digits after `loif` (kept as text: the identifier
  `f"loif{group[0]}"` preserves leading zeros, e.g. `loif01`). -/
  g0 : String
  /-- `group[1]`: mode text, compared against `"True"`. -/
  g1 : String
  /-- `group[2]`: receiver band string. -/
  g2 : String
  g3 : FreqField
  g4 : FreqField
  g5 : FreqField
  g6 : FreqField
  /-- `group[7]`: the flag, `int(group[7])`. -/
  g7 : ℤ

/-- A parsed `LoIfSetup` record (Hz frequencies). -/
structure LoIfSetup where
  ix : ℕ
  loif : String
  mode : Bool
  rcvr : String
  bb_ac1 : ℚ
  bb_ac2 : ℚ
  bb_bd1 : ℚ
  bb_bd2 : ℚ
  flag : ℤ
  is_8bit : Bool
  is_3bit : Bool
  uses_offset : Bool
  tuning_offset : ℚ

/-- `LoIfSetup.__init__`: fields derived from the capture group.
`is_8bit` is `self.bb_ac2 + self.bb_bd2 == 0.0`; `is_3bit` its
negation. -/
def LoIfSetup.ofGroup (group : LoIfGroup) (tuning_offset : ℚ) : LoIfSetup :=
  let pf := parse_frequency tuning_offset
  { ix := group.g0.toNat?.getD 0
    loif := "loif" ++ group.g0
    mode := group.g1 = "True"
    rcvr := group.g2
    bb_ac1 := pf group.g3
    bb_ac2 := pf group.g4
    bb_bd1 := pf group.g5
    bb_bd2 := pf group.g6
    flag := group.g7
    is_8bit := pf group.g4 + pf group.g6 = 0
    is_3bit := ¬(pf group.g4 + pf group.g6 = 0)
    uses_offset := group.g3.usesOffset || group.g4.usesOffset ||
                   group.g5.usesOffset || group.g6.usesOffset
    tuning_offset := tuning_offset }

/-- `LoIfSetup._bb_map`: baseband name → center frequency; a name
outside the six keys is a `KeyError` (`none`). -/
def LoIfSetup.bb_map (s : LoIfSetup) (name : String) : Option ℚ :=
  if name = "A0/C0" then some s.bb_ac1
  else if name = "B0/D0" then some s.bb_bd1
  else if name = "A1/C1" then some s.bb_ac1
  else if name = "A2/C2" then some s.bb_ac2
  else if name = "B1/D1" then some s.bb_bd1
  else if name = "B2/D2" then some s.bb_bd2
  else none

/-- `LoIfSetup.freq_from_subband`: `assert self.mode` (invalid for
SSLOs), then `self._bb_map[subband.baseband.name]`. -/
def LoIfSetup.freq_from_subband (s : LoIfSetup) (sb : SubBand) :
    Except PyErr ℚ :=
  if s.mode then
    match s.bb_map sb.baseband.name with
    | some v => .ok v
    | none => .error .keyError
  else .error .assertionError

/-- `LoIfSetup.sky_freq_from_subband`: baseband start frequency
(center − bw/2) plus the subband's offset `cf` within the baseband. -/
def LoIfSetup.sky_freq_from_subband (s : LoIfSetup) (sb : SubBand) :
    Except PyErr ℚ := do
  let bb_center_freq ← s.freq_from_subband sb
  .ok (bb_center_freq - sb.baseband.bw / 2 + sb.cf)

/-- A parsed `LoIfOffset` record (`setWidarOffsetFreq`, Hz). -/
structure LoIfOffset where
  ix : ℕ
  loif : String
  df_ac1 : ℚ
  df_bd1 : ℚ
  df_ac2 : ℚ
  df_bd2 : ℚ

/-- `LoIfOffset.__init__` from the capture group `(digits, o1, o2, o3,
o4)` with MHz → Hz scaling; note the source maps `group[1..4]` to
`df_ac1, df_bd1, df_ac2, df_bd2` in that order. -/
def LoIfOffset.ofGroup (g0 : String) (g1 g2 g3 g4 : ℚ) : LoIfOffset :=
  { ix := g0.toNat?.getD 0
    loif := "loif" ++ g0
    df_ac1 := g1 * 1000000
    df_bd1 := g2 * 1000000
    df_ac2 := g3 * 1000000
    df_bd2 := g4 * 1000000 }

/-- `LoIfOffset._bb_map` (no mode assertion, unlike `LoIfSetup`). -/
def LoIfOffset.bb_map (o : LoIfOffset) (name : String) : Option ℚ :=
  if name = "A0/C0" then some o.df_ac1
  else if name = "B0/D0" then some o.df_bd1
  else if name = "A1/C1" then some o.df_ac1
  else if name = "A2/C2" then some o.df_ac2
  else if name = "B1/D1" then some o.df_bd1
  else if name = "B2/D2" then some o.df_bd2
  else none

/-- `LoIfOffset.freq_from_subband`. -/
def LoIfOffset.freq_from_subband (o : LoIfOffset) (sb : SubBand) :
    Except PyErr ℚ :=
  match o.bb_map sb.baseband.name with
  | some v => .ok v
  | none => .error .keyError

/-! ## Scan-sequence parsing (`EvlaScan.from_evla_text`, `core.py`) -/

/-- One line of the script, abstracted to the outcomes of the four
regex matches used by `EvlaScan.from_evla_text` plus blankness
(`line.strip() == ""`).  The scan-header capture is
`(scan number digits, field name, DB id digits)`; the time capture is
the three sidereal times; the LOIF capture is the digit text after
`loif` (kept as text: `f"loif{...}"` preserves leading zeros). -/
structure ScanLine where
  scanMatch : Option (ℕ × String × ℕ)
  timeMatch : Option (ℚ × ℚ × ℚ)
  intentMatch : Option String
  loifMatch : Option String
  isBlank : Bool

/-- A parsed scan record (`EvlaScan.__init__`). -/
structure EvlaScan where
  ix : ℕ
  field : String
  db_id : ℕ
  loif : String
  t_total : ℚ
  t_slew : ℚ
  t_onsrc : ℚ
  /-- `group[5].split()`. -/
  intents : List String

/-- Python `str.split()` with no argument: split on runs of whitespace,
dropping empty pieces (used for the scan intents). -/
def pySplitAux : List Char → List Char → List String
  | [], acc => if acc.isEmpty then [] else [String.mk acc.reverse]
  | c :: rest, acc =>
    if c.isWhitespace then
      if acc.isEmpty then pySplitAux rest []
      else String.mk acc.reverse :: pySplitAux rest []
    else pySplitAux rest (c :: acc)

/-- Python `str.split()` on a string. -/
def pySplit (s : String) : List String := pySplitAux s.data []

/-- The `for peek in lines[i:]` loop of `EvlaScan.from_evla_text`:
stop at the first blank line keeping the carried LOIF id, or at the
first LOIF-selection match taking its capture; falling off the end of
the file (the loop's `else`) is the convention `ParseError`. -/
def findBlockLoif (loif : Option String) :
    List ScanLine → Except PyErr (Option String)
  | [] => .error (.parseError "Invalid loifName/loifCounts convention.")
  | p :: ps =>
    if p.isBlank then .ok loif
    else
      match p.loifMatch with
      | some n => .ok (some n)
      | none => findBlockLoif loif ps

/-- The main line loop of `EvlaScan.from_evla_text`, carrying the
sticky `loif` and `intents` state (`"NULL"` modelled as `none`).  A
non-scan-header line is skipped; a scan header must be followed by a
time line (`ParseError` otherwise; a missing `lines[i+1]` is an
uncaught `IndexError`), optionally by an intent line (`lines[i+2]`,
whose absence from the file is likewise an `IndexError`); an unset
intent state is a `ParseError`; the block's LOIF is resolved by
`findBlockLoif` over `lines[i:]` and must not be `NULL`. -/
def scanLoop (loif : Option String) (intents : Option String) :
    List ScanLine → Except PyErr (List EvlaScan)
  | [] => .ok []
  | line :: rest =>
    match line.scanMatch with
    | none => scanLoop loif intents rest
    | some (ix, fieldName, dbId) =>
      match rest with
      | [] => .error .indexError
      | next :: rest2 =>
        match next.timeMatch with
        | none => .error (.parseError "Could not parse times.")
        | some times =>
          match rest2 with
          | [] => .error .indexError
          | next2 :: _ =>
            let intents' :=
              match next2.intentMatch with
              | some s => some s
              | none => intents
            match intents' with
            | none => .error (.parseError "Invalid addIntent convention.")
            | some ints =>
              match findBlockLoif loif (line :: rest) with
              | .error e => .error e
              | .ok none =>
                .error (.parseError "Invalid loifName/loifCounts convention.")
              | .ok (some n) =>
                match scanLoop (some n) (some ints) rest with
                | .error e => .error e
                | .ok more =>
                  .ok ({ ix := ix, field := fieldName, db_id := dbId,
                         loif := "loif" ++ n,
                         t_total := times.1, t_slew := times.2.1,
                         t_onsrc := times.2.2,
                         intents := pySplit ints }
                       :: more)

/-- `EvlaScan.from_evla_text`: run the line loop with both sticky
states initially `"NULL"`. -/
def evlaScansFromLines (lines : List ScanLine) :
    Except PyErr (List EvlaScan) :=
  scanLoop none none lines

/-! ## `EvlaFile.parse_max_config` (`core.py`) -/

/-- Python `str.strip()`: drop ASCII whitespace from both ends. -/
def pyStrip (l : List Char) : List Char :=
  (l.dropWhile Char.isWhitespace).reverse.dropWhile Char.isWhitespace
    |>.reverse

/-- Python `str.replace("=>", "")`: delete non-overlapping occurrences
of `=>` left to right. -/
def removeArrow : List Char → List Char
  | '=' :: '>' :: rest => removeArrow rest
  | c :: rest => c :: removeArrow rest
  | [] => []

/-- Python `str.split(",")` on a character list (comma-separated pieces,
keeping empties — `splitOn` semantics). -/
def splitComma (l : List Char) : List (List Char) :=
  match l with
  | [] => [[]]
  | c :: rest =>
    let r := splitComma rest
    if c = ',' then [] :: r
    else
      match r with
      | [] => [[c]]
      | p :: ps => (c :: p) :: ps

/-- Python `min` of a nonempty sequence as a left fold by code point
(keeping the earlier of equals). -/
def charFoldMin (c : Char) (cs : List Char) : Char :=
  cs.foldl (fun a b => if b.toNat < a.toNat then b else a) c

/-- Python `min` over the characters of a string piece (by code point,
first of equals); `min` of an empty sequence raises `ValueError`. -/
def pyMinChar : List Char → Except PyErr Char
  | [] => .error .valueError
  | c :: cs => .ok (charFoldMin c cs)

/-- `EvlaFile.parse_max_config` applied to the captured
`Array Configurations:` group text: split on commas, per entry strip
whitespace and delete `=>`, take the minimum character of each entry,
then the minimum over all entries. -/
def parse_max_config (group : String) : Except PyErr Char := do
  let configs ← exMapM
    (fun s => pyMinChar (removeArrow (pyStrip s))) (splitComma group.data)
  match configs with
  | [] => .error .valueError
  | c :: cs => .ok (charFoldMin c cs)

/-! ## Execution assembly (`core.py`) -/

/-- Python dict built by a comprehension over an association list:
a later binding of the same key overwrites an earlier one; lookup of a
missing key is `none` (`KeyError` at the call sites). -/
def pyDictGet {κ α : Type} [DecidableEq κ] (l : List (κ × α)) (k : κ) :
    Option α :=
  l.foldl (fun acc p => if p.1 = k then some p.2 else acc) none

/-- The header facts of an `EvlaFile` consumed by the assembled
`Execution` (decoding and regex extraction are upstream of the claims;
`max_baseline` is the meters value looked up from
`config_max_baselines[max_config]`). -/
structure EvlaFileData where
  oldstyle : Bool
  has_scan_loop : Bool
  max_config : Char
  /-- Meters. -/
  max_baseline : ℚ
  code : String
  dbid : String
  mjd : ℚ

/-- The assembled per-scan record (`WidarConfig` dataclass). -/
structure WidarConfig where
  scan : EvlaScan
  loif_setup : LoIfSetup
  loif_offset : LoIfOffset
  vci : VCIfile

/-- `Execution.get_vci_for_scans`: for each scan index pick the VCI
document whose `scanNum` is the greatest value ≤ the index.
`vci_nums` evaluates every document's `scanNum` (a bad `_scan` suffix
raises `ValueError` here); `max` of an empty candidate list raises
`ValueError`; the `vci_by_scan` dict keeps the last document per
`scanNum`.  The source's `assert s_ix >= 0` is vacuous for the ℕ-valued
scan indices captured by `(\d+)`. -/
def get_vci_for_scans (scans : List EvlaScan) (vcis : List VCIfile) :
    Except PyErr (List (ℕ × VCIfile)) := do
  let vci_nums ← exMapM VCIfile.scanNum vcis
  let vci_by_scan := vci_nums.zip vcis
  exMapM (fun s => do
    match (vci_nums.filter (· ≤ s.ix)).max? with
    | none => .error PyErr.valueError
    | some m =>
      match pyDictGet vci_by_scan m with
      | some v => .ok (s.ix, v)
      | none => .error PyErr.keyError) scans

/-- The `configs_by_scan` comprehension of `Execution.__init__`: one
`WidarConfig` per scan, keyed by `scan.ix`, joining the setup and
offset tables (dict lookups by `scan.loif`; a missing key is a
`KeyError`) and the resolved VCI document. -/
def mkConfigsByScan (scans : List EvlaScan)
    (loif_setups : List (String × LoIfSetup))
    (loif_offsets : List (String × LoIfOffset))
    (vci_by_scan : List (ℕ × VCIfile)) :
    Except PyErr (List (ℕ × WidarConfig)) :=
  exMapM (fun scan => do
    match pyDictGet loif_setups scan.loif with
    | none => .error PyErr.keyError
    | some su =>
      match pyDictGet loif_offsets scan.loif with
      | none => .error PyErr.keyError
      | some off =>
        match pyDictGet vci_by_scan scan.ix with
        | none => .error PyErr.keyError
        | some v =>
          .ok (scan.ix, { scan := scan, loif_setup := su,
                          loif_offset := off, vci := v })) scans

/-- The assembled state of an `Execution` that the analyses read:
directory labels, the script header facts, and the per-LOIF grouping
`configs_by_loif` (one inner list per LOIF id, in setup-table order). -/
structure Execution where
  label : String
  year : String
  month : String
  efile : EvlaFileData
  configs_by_loif : List (List WidarConfig)

/-! ## Mixer validation (`analysis/l302_mixer.py`) -/

/-- The `SubBandFreqs` dataclass: a subband, its assembled
configuration, and the observation's maximum baseline in meters. -/
structure SubBandFreqs where
  subband : SubBand
  config : WidarConfig
  b_max : ℚ

/-- `SubBandFreqs.tau = subband.inttime`. -/
def SubBandFreqs.tau (sf : SubBandFreqs) : ℚ := sf.subband.inttime

/-- `SubBandFreqs.bw = subband.bw`. -/
def SubBandFreqs.bw (sf : SubBandFreqs) : ℚ := sf.subband.bw

/-- `SubBandFreqs.f_sky`: the setup's sky frequency for the subband. -/
def SubBandFreqs.f_sky (sf : SubBandFreqs) : Except PyErr ℚ :=
  sf.config.loif_setup.sky_freq_from_subband sf.subband

/-- `SubBandFreqs.f_used`: the offset table's frequency for the
subband. -/
def SubBandFreqs.f_used (sf : SubBandFreqs) : Except PyErr ℚ :=
  sf.config.loif_offset.freq_from_subband sf.subband

/-- `SubBandFreqs.f_maxfringe`: the source's first statement is
`d_scale = self.b_max.to("km").value / 20`, but `b_max` is the plain
float `efile.max_baseline` (from `EvlaFile.config_max_baselines`; every
in-repo caller, `get_used_flag` and the tests, passes it), and a float
has no `.to` — so every evaluation raises `AttributeError` before any
arithmetic or the `f_sky` access (`self.f_sky.to("GHz")`, itself a
plain float from `sky_freq_from_subband`, would raise the same way).
The docstring formula `460 Hz × (b_max/20 km) × (f_sky/50 GHz)` is
never computed. -/
def SubBandFreqs.f_maxfringe (_sf : SubBandFreqs) : Except PyErr ℚ :=
  .error .attributeError

/-- `SubBandFreqs.f_min = max(f_maxfringe, 30 / tau)`: the arguments
are evaluated left to right, and `f_maxfringe` always raises
`AttributeError` (see there), so the rest of the line is dead code: a
zero `tau` would be a `ZeroDivisionError`, and otherwise `max` would
compare an astropy `Hz` `Quantity` against the bare float `30/tau`,
an astropy `UnitConversionError` — never a rational maximum. -/
def SubBandFreqs.f_min (sf : SubBandFreqs) : Except PyErr ℚ := do
  let _ ← sf.f_maxfringe
  if sf.tau = 0 then .error .zeroDivisionError
  else .error .unitConversionError

/-- `SubBandFreqs.f_max = bw / (4e4 if recirc > 1 else 3e3)`. -/
def SubBandFreqs.f_max (sf : SubBandFreqs) : ℚ :=
  sf.bw / (if 1 < sf.subband.recirc then 40000 else 3000)

/-- `SubBandFreqs.flag_from_freq(freq) =
mixer_flag_from_freqs(freq, f_min, f_max)`. -/
def SubBandFreqs.flag_from_freq (sf : SubBandFreqs) (freq : ℚ) :
    Except PyErr MixerFlag := do
  let fmin ← sf.f_min
  mixer_flag_from_freqs freq fmin sf.f_max

/-- `SubBandFreqs.used_flag = flag_from_freq(f_used)` (the argument is
evaluated before `f_min`/`f_max`). -/
def SubBandFreqs.used_flag (sf : SubBandFreqs) : Except PyErr MixerFlag := do
  let fu ← sf.f_used
  sf.flag_from_freq fu

/-- The innermost loop of `get_used_flag`: the first subband whose
`used_flag` is non-OKAY short-circuits (`some flag`); `none` means every
subband of the list was OKAY. -/
def usedFlagSubBands (cfg : WidarConfig) (b_max : ℚ) :
    List SubBand → Except PyErr (Option MixerFlag)
  | [] => .ok none
  | sb :: rest => do
    let flag ← (SubBandFreqs.mk sb cfg b_max).used_flag
    if flag = MixerFlag.OKAY then usedFlagSubBands cfg b_max rest
    else .ok (some flag)

/-- The baseband loop of `get_used_flag`. -/
def usedFlagBaseBands (cfg : WidarConfig) (b_max : ℚ) :
    List BaseBand → Except PyErr (Option MixerFlag)
  | [] => .ok none
  | bb :: rest => do
    match ← usedFlagSubBands cfg b_max bb.subBands with
    | some f => .ok (some f)
    | none => usedFlagBaseBands cfg b_max rest

/-- The grouping loop of `get_used_flag`: `configs[0]` on an empty
grouping is an `IndexError`. -/
def usedFlagGroups (b_max : ℚ) :
    List (List WidarConfig) → Except PyErr (Option MixerFlag)
  | [] => .ok none
  | g :: rest =>
    match g.head? with
    | none => .error .indexError
    | some cfg => do
      match ← usedFlagBaseBands cfg b_max cfg.vci.baseBands with
      | some f => .ok (some f)
      | none => usedFlagGroups b_max rest

/-- `get_used_flag(ex)` of `analysis/l302_mixer.py`: iterate the
representative configuration (`configs[0]`) of each LOIF grouping, its
basebands and subbands, returning the first non-OKAY `used_flag`, or
OKAY when none is found. -/
def get_used_flag (ex : Execution) : Except PyErr MixerFlag := do
  match ← usedFlagGroups ex.efile.max_baseline ex.configs_by_loif with
  | some f => .ok f
  | none => .ok MixerFlag.OKAY

/-- The `used_flag` results in (grouping, baseband, subband) iteration
order over the representative (first) configuration of each grouping
(groupings without a representative contribute nothing; `get_used_flag`
raises `IndexError` on those before this list matters). -/
def usedFlags (ex : Execution) : List (Except PyErr MixerFlag) :=
  (ex.configs_by_loif.filterMap List.head?).flatMap (fun cfg =>
    cfg.vci.baseBands.flatMap (fun bb =>
      bb.subBands.map (fun sb =>
        (SubBandFreqs.mk sb cfg ex.efile.max_baseline).used_flag)))

/-- The first non-OKAY (or raising) entry of a flag list, `.ok none`
when every entry is `.ok OKAY` — the early-exit semantics of the
`get_used_flag` loop nest, stated over the flat iteration order. -/
def firstNonOkay (l : List (Except PyErr MixerFlag)) :
    Except PyErr (Option MixerFlag) :=
  match l.find? (fun r => decide (r ≠ Except.ok MixerFlag.OKAY)) with
  | none => .ok none
  | some (.ok fl) => .ok (some fl)
  | some (.error e) => .error e

/-! ## Valid-subband iteration and tabular export (`core.py`) -/

/-- `Execution.iter_valid_unique_subbands`: take the representative
(first) configuration of every LOIF grouping — `ws[0]` on an empty
grouping is an `IndexError` — then yield every (configuration,
baseband, subband) triple whose subband `is_valid`. -/
def iter_valid_unique_subbands (ex : Execution) :
    Except PyErr (List (WidarConfig × BaseBand × SubBand)) := do
  let configs ← exMapM (fun ws =>
    match ws.head? with
    | some c => Except.ok c
    | none => Except.error PyErr.indexError) ex.configs_by_loif
  .ok (configs.flatMap (fun c =>
    c.vci.baseBands.flatMap (fun bb =>
      (bb.subBands.filter (·.is_valid)).map (fun sb => (c, bb, sb)))))

/-- `Execution.all_invalid`: probe the lazy sequence for one element
(`True` on `StopIteration`, i.e. the sequence is empty). -/
def Execution.all_invalid (ex : Execution) : Except PyErr Bool := do
  let items ← iter_valid_unique_subbands ex
  .ok items.isEmpty

/-- One output row of `Execution.to_pandas` (the `f_opt` column, a
float involving `np.pi` and a square root, is not modelled; no claim
concerns it). -/
structure Row where
  label : String
  year : String
  month : String
  code : String
  dbid : String
  mjd : ℚ
  lo_ix : ℕ
  bb_ix : String
  sb_ix : ℤ
  max_config : Char
  max_baseline : ℚ
  lo_mode : Bool
  lo_flag : ℤ
  rcvr : String
  bb_bw : ℚ
  in_quant : ℤ
  is_8bit : Bool
  npol : ℕ
  nchan : ℤ
  recirc : ℤ
  min_integ_time : ℚ
  int_time : ℚ
  sb_bw : ℚ
  sb_cf : ℚ
  nblb : ℕ
  f_samp : ℚ
  f_sky : ℚ
  f_shift : ℚ
  bb_cf : ℚ

/-- `Execution.to_pandas`: materialize the valid triples, raise
`ParseError("No valid subbands.")` when there are none, and otherwise
build one row per triple (the sky/shift/center frequency columns can
themselves raise, e.g. the mode assertion). -/
def Execution.to_pandas (ex : Execution) : Except PyErr (List Row) := do
  let ex_items ← iter_valid_unique_subbands ex
  if ex_items.isEmpty then .error (.parseError "No valid subbands.")
  else
    exMapM (fun t => do
      let (c, bb, sb) := t
      let fsky ← c.loif_setup.sky_freq_from_subband sb
      let fshift ← c.loif_offset.freq_from_subband sb
      let bbcf ← c.loif_setup.freq_from_subband sb
      Except.ok
        { label := ex.label, year := ex.year, month := ex.month
          code := ex.efile.code, dbid := ex.efile.dbid, mjd := ex.efile.mjd
          lo_ix := c.loif_setup.ix, bb_ix := bb.info.name
          sb_ix := sb.swIndex
          max_config := ex.efile.max_config
          max_baseline := ex.efile.max_baseline
          lo_mode := c.loif_setup.mode, lo_flag := c.loif_setup.flag
          rcvr := c.loif_setup.rcvr
          bb_bw := bb.info.bw, in_quant := bb.info.inQuant
          is_8bit := bb.info.is_8bit
          npol := sb.npol, nchan := sb.nchan, recirc := sb.recirc
          min_integ_time := sb.minIntegTime, int_time := sb.inttime
          sb_bw := sb.bw, sb_cf := sb.cf, nblb := sb.nblb
          f_samp := sb.freqSamp
          f_sky := fsky, f_shift := fshift, bb_cf := bbcf }) ex_items

/-! ## Batch driver (`parse_exec_if_valid`, `core.py`) -/

/-- The `KNOWN_INVALID` allow-list of observation names skipped with a
warning. -/
def KNOWN_INVALID : List String := ["53714A-242A"]

/-- `parse_exec_if_valid(path)`: skip allow-listed names (returning
`None` after a warning); run the `Execution` construction — modelled by
its outcome `exec_result`, since construction starts from the
filesystem — returning the execution on success; catch `ParseError`
(only: `ParseError` subclasses `RuntimeError`) and return `None`; any
other exception, e.g. `ValueError`, propagates. -/
def parse_exec_if_valid (pathName : String)
    (exec_result : Except PyErr Execution) :
    Except PyErr (Option Execution) :=
  if pathName ∈ KNOWN_INVALID then .ok none
  else
    match exec_result with
    | .ok ex => .ok (some ex)
    | .error (.parseError _) => .ok none
    | .error e => .error e

/-! ## Concrete example data (used by witnesses and counterexamples) -/

/-- A setup record whose secondary-pair frequencies are `1` MHz and
`−1` MHz: their sum is zero without both being zero. -/
def exGroupMixed : LoIfGroup := ⟨"1", "True", "6GHz", .lit 0, .lit 1, .lit 0, .lit (-1), 0⟩

/-- An 8-bit-style setup record (both secondary-pair frequencies zero),
with the primary frequencies of the repository's tuning-offset test. -/
def exGroup8bit : LoIfGroup := ⟨"2", "True", "6GHz", .lit 236, .lit 0, .lit 150, .lit 0, 1⟩

/-- A signed-sum-of-LO setup record (`mode` text not `"True"`). -/
def exGroupSSLO : LoIfGroup := ⟨"3", "False", "6GHz", .lit 100, .lit 0, .lit 200, .lit 0, 0⟩

/-- A baseband-center-frequency-mode setup record. -/
def exGroupMode : LoIfGroup := ⟨"1", "True", "6GHz", .lit 100, .lit 0, .lit 200, .lit 0, 1⟩

/-- A WIDAR offset record with distinct offsets per pair. -/
def exOffset : LoIfOffset := LoIfOffset.ofGroup "1" 1 2 3 4

/-- An 8-bit `A0/C0` baseband of 1 MHz bandwidth. -/
def exBBInfo : BaseBandInfo := ⟨"A0/C0", 1000000, 8⟩

/-- A valid subband of the example baseband: 1 MHz bandwidth, centered
0.5 MHz into the baseband, one-second integration. -/
def exSubBand : SubBand :=
  ⟨exBBInfo, 4, 64, 1, 1, 1, 1, 1, 1000000, 500000, 1, 1, 2, true⟩

/-- The same subband flagged invalid. -/
def exSubBandInvalid : SubBand :=
  ⟨exBBInfo, 4, 64, 1, 1, 1, 1, 1, 1000000, 500000, 1, 1, 0, false⟩

/-- An example scan. -/
def exScan : EvlaScan := ⟨1, "J1234+5678", 7, "loif1", 10, 2, 8, ["CALIBRATE_FLUX"]⟩

/-- An example VCI document holding the example subband. -/
def exVci : VCIfile := ⟨"obs.xml_scan1", [⟨exBBInfo, [exSubBand]⟩]⟩

/-- A VCI document whose only subband is invalid. -/
def exVciInvalid : VCIfile := ⟨"obs.xml_scan1", [⟨exBBInfo, [exSubBandInvalid]⟩]⟩

/-- An assembled configuration whose setup is in SSLO mode. -/
def exConfigSSLO : WidarConfig :=
  ⟨exScan, LoIfSetup.ofGroup exGroupSSLO 0, exOffset, exVci⟩

/-- An assembled configuration in baseband-center-frequency mode. -/
def exConfigMode : WidarConfig :=
  ⟨exScan, LoIfSetup.ofGroup exGroupMode 0, exOffset, exVci⟩

/-- Example script-header facts (B configuration, 11100 m). -/
def exEfile : EvlaFileData := ⟨false, false, 'B', 11100, "97920B", "310", 59000⟩

/-- An assembled configuration whose only subband is invalid. -/
def exConfigInvalid : WidarConfig :=
  ⟨exScan, LoIfSetup.ofGroup exGroupMode 0, exOffset, exVciInvalid⟩

/-- An example execution with one LOIF grouping and one valid subband. -/
def exExecution : Execution :=
  ⟨"2021/01/97920B-310A", "2021", "01", exEfile, [[exConfigMode]]⟩

/-- An execution whose every subband is invalid. -/
def exExecutionInvalid : Execution :=
  ⟨"2014/06/53714A-242A", "2014", "06", exEfile, [[exConfigInvalid]]⟩

/-- An execution with no LOIF groupings at all. -/
def exExecutionEmpty : Execution :=
  ⟨"2021/01/empty", "2021", "01", exEfile, []⟩

/-- A scan-header line (`# Scan num. 1, 'J1234+5678', DB ID 7`). -/
def exScanHeaderLine : ScanLine := ⟨some (1, "J1234+5678", 7), none, none, none, false⟩

/-- A sidereal-time comment line. -/
def exTimeLine : ScanLine := ⟨none, some (10, 2, 8), none, none, false⟩

/-- An intent-declaration line. -/
def exIntentLine : ScanLine := ⟨none, none, some "CALIBRATE_FLUX", none, false⟩

/-- A blank line (block boundary). -/
def exBlankLine : ScanLine := ⟨none, none, none, none, true⟩

/-- A scan block with no LOIF-selection line before its blank-line
boundary. -/
def exBlockLines : List ScanLine :=
  [exScanHeaderLine, exTimeLine, exIntentLine, exBlankLine]

/-- The scan obtained by parsing `exBlockLines` with carried LOIF id
`"02"`. -/
def exCarriedScan : EvlaScan :=
  ⟨1, "J1234+5678", 7, "loif02", 10, 2, 8, ["CALIBRATE_FLUX"]⟩

/-- C1 (counterexample): the claim is false as stated.  With
`f_min = f_max = 1` (positive, well ordered: `f_min ≤ f_max`) the input
`f = 2` reaches the trailing `raise ValueError` branch instead of
classifying to one of {OKAY, BELOW, ABOVE}. -/
theorem mixer_flag_total_counterexample :
    (0 : ℚ) < 1 ∧ (1 : ℚ) ≤ 1 ∧
    mixer_flag_from_freqs 2 1 1 = .error .valueError := by
  refine ⟨by norm_num, le_refl 1, ?_⟩
  simp [mixer_flag_from_freqs]

/-- C1 (amended): for `f_min < f_max` every `f` classifies to exactly one
of {OKAY, BELOW, ABOVE}; for `f_min = f_max` only `f = f_min` classifies
(to OKAY) and every other `f` reaches the `ValueError` branch; for
`f_min > f_max` every `f` classifies to FAIL. -/
theorem mixer_flag_total_amended (f_min f_max f : ℚ) :
    (f_min < f_max →
      mixer_flag_from_freqs f f_min f_max = .ok .BELOW ∨
      mixer_flag_from_freqs f f_min f_max = .ok .ABOVE ∨
      mixer_flag_from_freqs f f_min f_max = .ok .OKAY) ∧
    (f_min = f_max →
      mixer_flag_from_freqs f f_min f_max =
        (if f = f_min then .ok .OKAY else .error .valueError)) ∧
    (f_max < f_min → mixer_flag_from_freqs f f_min f_max = .ok .FAIL) := by
  refine ⟨fun hlt => ?_, fun heq => ?_, fun hgt => ?_⟩
  · unfold mixer_flag_from_freqs
    split_ifs with h1 h2 h3 h4
    · exact absurd h1 (not_lt.mpr hlt.le)
    · exact Or.inl rfl
    · exact Or.inr (Or.inl rfl)
    · exact Or.inr (Or.inr rfl)
    · exfalso
      rcases not_and_or.mp h4 with h | h
      · exact h2 ⟨not_le.mp h, hlt⟩
      · exact h3 ⟨hlt, not_le.mp h⟩
  · subst heq
    by_cases hf : f = f_min
    · subst hf
      rw [if_pos rfl]
      unfold mixer_flag_from_freqs
      rw [if_neg (lt_irrefl f), if_neg (fun h => absurd h.1 (lt_irrefl f)),
          if_neg (fun h => absurd h.1 (lt_irrefl f)),
          if_pos ⟨le_refl f, le_refl f⟩]
    · rw [if_neg hf]
      unfold mixer_flag_from_freqs
      rw [if_neg (lt_irrefl f_min),
          if_neg (fun h => absurd h.2 (lt_irrefl f_min)),
          if_neg (fun h => absurd h.1 (lt_irrefl f_min)),
          if_neg (fun h => hf (le_antisymm h.2 h.1))]
  · unfold mixer_flag_from_freqs
    rw [if_pos hgt]

/-- C1 (witness): instantiates `mixer_flag_total_amended` at
`f_min = 1, f_max = 2, f = 3` (ABOVE), at `f_min = f_max = 1, f = 1`
(OKAY), and at `f_min = 2, f_max = 1` (FAIL). -/
theorem mixer_flag_total_amended_witness :
    mixer_flag_from_freqs 3 1 2 = .ok .ABOVE ∧
    mixer_flag_from_freqs 1 1 1 = .ok .OKAY ∧
    mixer_flag_from_freqs 5 2 1 = .ok .FAIL := by
  refine ⟨?_, ?_, ?_⟩
  · rcases (mixer_flag_total_amended 1 2 3).1 (by norm_num) with h | h | h
    · exact absurd h (by decide)
    · exact h
    · exact absurd h (by decide)
  · have h := (mixer_flag_total_amended 1 1 1).2.1 rfl
    rwa [if_pos rfl] at h
  · exact (mixer_flag_total_amended 2 1 5).2.2 (by norm_num)

@[simp] theorem ok_bind {α β : Type} (a : α) (f : α → Except PyErr β) :
    (Except.ok a >>= f : Except PyErr β) = f a := rfl

@[simp] theorem error_bind {α β : Type} (e : PyErr) (f : α → Except PyErr β) :
    (Except.error e >>= f : Except PyErr β) = Except.error e := rfl

theorem exMapM_ok_forall {α β : Type} (f : α → Except PyErr β) :
    ∀ (l : List α) (ys : List β), exMapM f l = .ok ys →
      ∀ x ∈ l, ∃ y ∈ ys, f x = .ok y := by
  intro l
  induction l with
  | nil =>
    intro ys _ x hx
    simp at hx
  | cons a as ih =>
    intro ys h x hx
    rw [exMapM] at h
    cases hfa : f a with
    | error e => rw [hfa] at h; simp at h
    | ok y =>
      rw [hfa] at h
      cases has : exMapM f as with
      | error e => rw [has] at h; simp at h
      | ok ys' =>
        rw [has] at h
        simp at h
        rcases List.mem_cons.mp hx with rfl | hx'
        · exact ⟨y, by rw [← h]; exact List.mem_cons_self _ _, hfa⟩
        · rcases ih ys' has x hx' with ⟨z, hz, hfz⟩
          exact ⟨z, by rw [← h]; exact List.mem_cons_of_mem _ hz, hfz⟩

theorem charFoldMin_le (cs : List Char) :
    ∀ c, ∀ x ∈ c :: cs, (charFoldMin c cs).toNat ≤ x.toNat := by
  induction cs with
  | nil =>
    intro c x hx
    have hx' : x = c := by simpa using hx
    subst hx'
    exact le_refl _
  | cons b bs ih =>
    intro c x hx
    have hseed : charFoldMin c (b :: bs)
        = charFoldMin (if b.toNat < c.toNat then b else c) bs := rfl
    have hhead := ih (if b.toNat < c.toNat then b else c) _
      (List.mem_cons_self _ _)
    rw [hseed]
    rcases List.mem_cons.mp hx with rfl | hx'
    · refine le_trans hhead ?_
      split <;> omega
    · rcases List.mem_cons.mp hx' with rfl | hx2
      · refine le_trans hhead ?_
        split <;> omega
      · exact ih _ _ (List.mem_cons_of_mem _ hx2)

theorem pyMinChar_le {l : List Char} {c : Char} (h : pyMinChar l = .ok c) :
    ∀ x ∈ l, c.toNat ≤ x.toNat := by
  cases l with
  | nil => simp [pyMinChar] at h
  | cons a cs =>
    have hc : charFoldMin a cs = c := by simpa [pyMinChar] using h
    subst hc
    exact fun x hx => charFoldMin_le cs a x hx

/-- C9: `parse_max_config` splits the declared configuration list on
commas, strips the `=>` transition notation (after whitespace
stripping), and returns the minimum-ordinal character per entry
minimized over all entries; in particular `["C=>CNB","CNB=>B"]` yields
`'B'` and `["Any"]` yields `'A'`. -/
theorem parse_max_config_spec :
    parse_max_config "C=>CNB,CNB=>B" = .ok 'B' ∧
    parse_max_config "Any" = .ok 'A' ∧
    (∀ group c, parse_max_config group = .ok c →
      ∀ s ∈ splitComma group.data, ∀ ch ∈ removeArrow (pyStrip s),
        c.toNat ≤ ch.toNat) := by
  refine ⟨by decide, by decide, ?_⟩
  intro group c h s hs ch hch
  rw [parse_max_config] at h
  cases hm : exMapM (fun s => pyMinChar (removeArrow (pyStrip s)))
      (splitComma group.data) with
  | error e => rw [hm] at h; simp at h
  | ok configs =>
    rw [hm] at h
    simp at h
    cases configs with
    | nil => simp at h
    | cons c0 cs0 =>
      have hc : charFoldMin c0 cs0 = c := by simpa using h
      rcases exMapM_ok_forall _ _ _ hm s hs with ⟨y, hy, hfy⟩
      have h1 : c.toNat ≤ y.toNat := by
        rw [← hc]
        exact charFoldMin_le cs0 c0 y hy
      have h2 : y.toNat ≤ ch.toNat := pyMinChar_le hfy ch hch
      exact le_trans h1 h2

/-- C9 (witness): instantiates `parse_max_config_spec` on the entry
list `"BA"`, whose minimum is `'A'`, bounding the character `'B'`. -/
theorem parse_max_config_spec_witness : ('A').toNat ≤ ('B').toNat :=
  parse_max_config_spec.2.2 "BA" 'A' (by decide)
    ("BA".data) (by decide) 'B' (by decide)

/-- C6 (counterexample): the claim is false as stated.  A parsed setup
whose secondary-pair frequencies are `1` MHz and `−1` MHz has
`is_8bit = true` (their sum is `0.0`) although the two frequencies are
not both zero. -/
theorem is_8bit_counterexample :
    (LoIfSetup.ofGroup exGroupMixed 0).is_8bit = true ∧
    ¬((LoIfSetup.ofGroup exGroupMixed 0).bb_ac2 = 0 ∧
      (LoIfSetup.ofGroup exGroupMixed 0).bb_bd2 = 0) := by
  constructor
  · simp only [LoIfSetup.ofGroup, exGroupMixed, parse_frequency,
      decide_eq_true_eq]
    norm_num
  · simp only [LoIfSetup.ofGroup, exGroupMixed, parse_frequency]
    rintro ⟨h1, -⟩
    norm_num at h1

/-- C6 (amended): for every parsed `LoIfSetup`, `is_8bit` is true iff
the *sum* `bb_ac2 + bb_bd2` is zero; when both secondary-pair
frequencies are nonnegative this coincides with both being zero — in
particular a setup declaring only `"A0/C0"`/`"B0/D0"` frequencies (both
secondary frequencies zero) has `is_8bit = true`. -/
theorem is_8bit_amended (group : LoIfGroup) (t : ℚ) :
    ((LoIfSetup.ofGroup group t).is_8bit = true ↔
      (LoIfSetup.ofGroup group t).bb_ac2 + (LoIfSetup.ofGroup group t).bb_bd2 = 0) ∧
    (0 ≤ (LoIfSetup.ofGroup group t).bb_ac2 →
     0 ≤ (LoIfSetup.ofGroup group t).bb_bd2 →
      ((LoIfSetup.ofGroup group t).is_8bit = true ↔
        ((LoIfSetup.ofGroup group t).bb_ac2 = 0 ∧
         (LoIfSetup.ofGroup group t).bb_bd2 = 0))) := by
  have hiff : (LoIfSetup.ofGroup group t).is_8bit = true ↔
      (LoIfSetup.ofGroup group t).bb_ac2 + (LoIfSetup.ofGroup group t).bb_bd2 = 0 := by
    show (decide (parse_frequency t group.g4 + parse_frequency t group.g6 = 0)) = true ↔ _
    simp [LoIfSetup.ofGroup]
  refine ⟨hiff, fun h1 h2 => ?_⟩
  rw [hiff]
  exact add_eq_zero_iff_of_nonneg h1 h2

/-- C6 (witness): instantiates `is_8bit_amended` on the 8-bit example
setup (secondary frequencies both zero, nonnegative). -/
theorem is_8bit_amended_witness :
    (LoIfSetup.ofGroup exGroup8bit 0).is_8bit = true :=
  ((is_8bit_amended exGroup8bit 0).2
      (by simp only [LoIfSetup.ofGroup, exGroup8bit, parse_frequency]; norm_num)
      (by simp only [LoIfSetup.ofGroup, exGroup8bit, parse_frequency]; norm_num)).mpr
    ⟨by simp only [LoIfSetup.ofGroup, exGroup8bit, parse_frequency]; norm_num,
     by simp only [LoIfSetup.ofGroup, exGroup8bit, parse_frequency]; norm_num⟩

/-- C10 (counterexample): the claim is false as stated for `f_used`.
With a setup in SSLO mode (`mode = False`), `SubBandFreqs.f_used` —
built on `LoIfOffset.freq_from_subband`, which has no mode assertion —
returns the offset frequency (here 1 MHz for `A0/C0`) instead of
failing an assertion. -/
theorem f_used_mode_false_counterexample :
    (LoIfSetup.ofGroup exGroupSSLO 0).mode = false ∧
    (SubBandFreqs.mk exSubBand exConfigSSLO 11100).f_used = .ok 1000000 := by
  constructor
  · rfl
  · simp only [SubBandFreqs.f_used, exConfigSSLO, exOffset, exSubBand,
      exBBInfo, LoIfOffset.ofGroup, LoIfOffset.freq_from_subband,
      LoIfOffset.bb_map]
    norm_num

/-- C10 (amended): for every setup with `mode = False`,
`freq_from_subband` and `sky_freq_from_subband` — and hence the mixer
validator's `f_sky` — fail the `assert self.mode` assertion instead of
returning a frequency.  `f_used` alone does not depend on `mode`; and
the flag classifications (`flag_from_freq`, and `used_flag` once its
`f_used` argument evaluates) never reach the assertion at all: they
die first on the `AttributeError` of `f_maxfringe`'s `b_max.to("km")`,
mode or no mode. -/
theorem mode_false_assertion (s : LoIfSetup) (sb : SubBand)
    (cfg : WidarConfig) (b_max : ℚ)
    (hmode : s.mode = false) (hcfg : cfg.loif_setup = s) :
    s.freq_from_subband sb = .error .assertionError ∧
    s.sky_freq_from_subband sb = .error .assertionError ∧
    (SubBandFreqs.mk sb cfg b_max).f_sky = .error .assertionError ∧
    (∀ f, (SubBandFreqs.mk sb cfg b_max).flag_from_freq f
      = .error .attributeError) ∧
    (∀ v, (SubBandFreqs.mk sb cfg b_max).f_used = .ok v →
      (SubBandFreqs.mk sb cfg b_max).used_flag
        = .error .attributeError) := by
  have h1 : s.freq_from_subband sb = .error .assertionError := by
    rw [LoIfSetup.freq_from_subband, hmode]
    simp
  have h2 : s.sky_freq_from_subband sb = .error .assertionError := by
    rw [LoIfSetup.sky_freq_from_subband, h1]
    rfl
  have h3 : (SubBandFreqs.mk sb cfg b_max).f_sky = .error .assertionError := by
    rw [SubBandFreqs.f_sky]
    simp only [hcfg]
    exact h2
  refine ⟨h1, h2, h3, fun f => rfl, fun v hv => ?_⟩
  rw [SubBandFreqs.used_flag, hv]
  rfl

/-- C10 (witness): instantiates `mode_false_assertion` on the SSLO
example configuration; its `used_flag` dies on the `AttributeError` of
the unit bug (after `f_used` returned 1 MHz), not on the assertion. -/
theorem mode_false_assertion_witness :
    (SubBandFreqs.mk exSubBand exConfigSSLO 11100).used_flag
      = .error .attributeError :=
  (mode_false_assertion (LoIfSetup.ofGroup exGroupSSLO 0) exSubBand
    exConfigSSLO 11100 rfl rfl).2.2.2.2 1000000
    (by simp only [SubBandFreqs.f_used, exConfigSSLO, exOffset, exSubBand,
          exBBInfo, LoIfOffset.ofGroup, LoIfOffset.freq_from_subband,
          LoIfOffset.bb_map]
        norm_num)

/-- C3 (code bug): the claimed formulas are the intent — the module
docstring states `f_mf = 460 Hz * b_max / 20 km * f_sky / 50 GHz` and
`f_min = max(f_mf, 30/tau)`, and the tests assert the derived flags —
but the code never computes them: `f_maxfringe` evaluates
`self.b_max.to("km")` on the plain float `efile.max_baseline`, raising
`AttributeError` before any arithmetic, and `f_min` dies on that same
error while evaluating its first `max` argument.  Only the unit-free
`f_max = bw / (4e4 if recirc > 1 else 3e3)` branch computes, shown
here on the concrete subband (`recirc = 1`, `bw = 1` MHz). -/
theorem mixer_bounds_unit_bug :
    (SubBandFreqs.mk exSubBand exConfigMode 11100).f_maxfringe
      = .error .attributeError ∧
    (SubBandFreqs.mk exSubBand exConfigMode 11100).f_min
      = .error .attributeError ∧
    (SubBandFreqs.mk exSubBand exConfigMode 11100).f_max
      = 1000000 / 3000 := by
  refine ⟨rfl, rfl, ?_⟩
  rw [SubBandFreqs.f_max,
      if_neg (by show ¬((1 : ℤ) < exSubBand.recirc); simp [exSubBand])]
  rfl

theorem firstNonOkay_cons (r : Except PyErr MixerFlag)
    (l : List (Except PyErr MixerFlag)) :
    firstNonOkay (r :: l)
      = if r = Except.ok MixerFlag.OKAY then firstNonOkay l
        else match r with
          | .ok fl => .ok (some fl)
          | .error e => .error e := by
  by_cases hr : r = Except.ok MixerFlag.OKAY
  · rw [if_pos hr]
    subst hr
    unfold firstNonOkay
    rw [List.find?_cons_of_neg _ (by simp)]
  · rw [if_neg hr]
    unfold firstNonOkay
    rw [List.find?_cons_of_pos _ (by simp [hr])]
    cases r with
    | ok fl => rfl
    | error e => rfl

theorem firstNonOkay_append (l1 l2 : List (Except PyErr MixerFlag)) :
    firstNonOkay (l1 ++ l2)
      = match firstNonOkay l1 with
        | .ok none => firstNonOkay l2
        | r => r := by
  induction l1 with
  | nil => rfl
  | cons r l1 ih =>
    rw [List.cons_append, firstNonOkay_cons, firstNonOkay_cons]
    by_cases hr : r = Except.ok MixerFlag.OKAY
    · rw [if_pos hr, if_pos hr, ih]
    · rw [if_neg hr, if_neg hr]
      cases r with
      | ok fl => rfl
      | error e => rfl

theorem usedFlagSubBands_eq (cfg : WidarConfig) (b_max : ℚ)
    (sbs : List SubBand) :
    usedFlagSubBands cfg b_max sbs
      = firstNonOkay (sbs.map
          (fun sb => (SubBandFreqs.mk sb cfg b_max).used_flag)) := by
  induction sbs with
  | nil => rfl
  | cons sb rest ih =>
    rw [usedFlagSubBands, List.map_cons, firstNonOkay_cons]
    cases hf : (SubBandFreqs.mk sb cfg b_max).used_flag with
    | error e => simp [hf]
    | ok fl =>
      by_cases hfl : fl = MixerFlag.OKAY
      · subst hfl
        simp [hf, ih]
      · simp [hf, hfl]

theorem usedFlagBaseBands_eq (cfg : WidarConfig) (b_max : ℚ)
    (bbs : List BaseBand) :
    usedFlagBaseBands cfg b_max bbs
      = firstNonOkay (bbs.flatMap (fun bb => bb.subBands.map
          (fun sb => (SubBandFreqs.mk sb cfg b_max).used_flag))) := by
  induction bbs with
  | nil => rfl
  | cons bb rest ih =>
    rw [usedFlagBaseBands, List.flatMap_cons, firstNonOkay_append,
        usedFlagSubBands_eq]
    cases h1 : firstNonOkay (bb.subBands.map
        (fun sb => (SubBandFreqs.mk sb cfg b_max).used_flag)) with
    | error e => simp
    | ok o =>
      cases o with
      | none => simpa using ih
      | some f => simp

theorem usedFlagGroups_eq (b_max : ℚ) (groups : List (List WidarConfig))
    (hne : ∀ g ∈ groups, g ≠ []) :
    usedFlagGroups b_max groups
      = firstNonOkay ((groups.filterMap List.head?).flatMap
          (fun cfg => cfg.vci.baseBands.flatMap (fun bb => bb.subBands.map
            (fun sb => (SubBandFreqs.mk sb cfg b_max).used_flag)))) := by
  induction groups with
  | nil => rfl
  | cons g rest ih =>
    obtain ⟨cfg, g', rfl⟩ : ∃ c t, g = c :: t := by
      cases g with
      | nil => exact absurd rfl (hne [] (List.mem_cons_self _ _))
      | cons c t => exact ⟨c, t, rfl⟩
    have ih' := ih (fun h hm => hne h (List.mem_cons_of_mem _ hm))
    rw [usedFlagGroups]
    simp only [List.head?, List.filterMap_cons, List.flatMap_cons]
    rw [firstNonOkay_append, usedFlagBaseBands_eq]
    cases h1 : firstNonOkay (cfg.vci.baseBands.flatMap
        (fun bb => bb.subBands.map
          (fun sb => (SubBandFreqs.mk sb cfg b_max).used_flag))) with
    | error e => simp
    | ok o =>
      cases o with
      | none => simpa using ih'
      | some f => simp

/-- Supporting characterization of the `get_used_flag` loop nest: it
equals the first non-`.ok OKAY` entry of the `used_flag` results in
(grouping, baseband, subband) iteration order over the representative
(first) configuration of each LOIF grouping — an exception is the
`.error` it propagates in place of a classification — defaulting to
OKAY (hypothesis: every grouping is nonempty; an empty grouping is an
`IndexError` in both the source and the model). -/
theorem get_used_flag_firstNonOkay (ex : Execution)
    (hne : ∀ g ∈ ex.configs_by_loif, g ≠ []) :
    (get_used_flag ex
      = ((usedFlags ex).find?
          (fun r => decide (r ≠ Except.ok MixerFlag.OKAY))).getD
            (Except.ok MixerFlag.OKAY)) ∧
    (get_used_flag ex = .ok MixerFlag.OKAY ↔
      ∀ r ∈ usedFlags ex, r = .ok MixerFlag.OKAY) := by
  have hg := usedFlagGroups_eq ex.efile.max_baseline ex.configs_by_loif hne
  have hg' : usedFlagGroups ex.efile.max_baseline ex.configs_by_loif
      = firstNonOkay (usedFlags ex) := hg.trans rfl
  have hmain : get_used_flag ex
      = ((usedFlags ex).find?
          (fun r => decide (r ≠ Except.ok MixerFlag.OKAY))).getD
            (Except.ok MixerFlag.OKAY) := by
    rw [get_used_flag, hg']
    unfold firstNonOkay
    cases hf : (usedFlags ex).find?
        (fun r => decide (r ≠ Except.ok MixerFlag.OKAY)) with
    | none => rfl
    | some r =>
      cases r with
      | ok fl => rfl
      | error e => rfl
  refine ⟨hmain, ?_⟩
  rw [hmain]
  cases hf : (usedFlags ex).find?
      (fun r => decide (r ≠ Except.ok MixerFlag.OKAY)) with
  | none =>
    simp only [Option.getD_none]
    constructor
    · intro _ r hr
      have := List.find?_eq_none.mp hf r hr
      simpa using this
    · intro _; trivial
  | some r =>
    simp only [Option.getD_some]
    have hpr : r ≠ Except.ok MixerFlag.OKAY := by
      have := List.find?_some hf
      simpa using this
    have hmem : r ∈ usedFlags ex := List.mem_of_find?_eq_some hf
    constructor
    · intro h; exact absurd h hpr
    · intro h; exact absurd (h r hmem) hpr

/-- C2 (code bug): `get_used_flag` cannot return the claimed
classification: on any execution whose representative configurations
contain a subband, the first `used_flag` evaluation raises the
`AttributeError` of `f_maxfringe`'s `b_max.to("km")` (the plain-float
baseline has no `.to`), and that exception propagates out of the loop
nest — the repository's own tests expect OKAY and FAIL returns here —
while an execution with no subbands at all falls through the loops to
OKAY. -/
theorem get_used_flag_unit_bug :
    get_used_flag exExecution = .error .attributeError ∧
    get_used_flag exExecutionEmpty = .ok MixerFlag.OKAY := by
  constructor
  · rfl
  · rfl

theorem flatMap_eq_nil_of_forall {α β : Type} (f : α → List β)
    (l : List α) (h : ∀ a ∈ l, f a = []) : l.flatMap f = [] := by
  induction l with
  | nil => rfl
  | cons a as ih =>
    rw [List.flatMap_cons, h a (List.mem_cons_self _ _), List.nil_append]
    exact ih (fun x hx => h x (List.mem_cons_of_mem _ hx))

theorem heads_exMapM (groups : List (List WidarConfig))
    (hne : ∀ g ∈ groups, g ≠ []) :
    exMapM (fun ws =>
        match ws.head? with
        | some c => Except.ok c
        | none => Except.error PyErr.indexError) groups
      = .ok (groups.filterMap List.head?) := by
  induction groups with
  | nil => rfl
  | cons g rest ih =>
    obtain ⟨c, t, rfl⟩ : ∃ c t, g = c :: t := by
      cases g with
      | nil => exact absurd rfl (hne [] (List.mem_cons_self _ _))
      | cons c t => exact ⟨c, t, rfl⟩
    rw [exMapM, ih (fun x hx => hne x (List.mem_cons_of_mem _ hx))]
    simp [List.filterMap_cons, List.head?]

/-- C7: (1) for every execution whose valid-triple materialization
succeeds, `all_invalid` is exactly the emptiness of that sequence, and
an empty sequence makes `to_pandas` raise
`ParseError("No valid subbands.")`; (2) an execution whose every
subband (over the representative configurations) has `is_valid = false`
yields an empty sequence, hence `all_invalid = true` and the raising
`to_pandas`. -/
theorem all_invalid_spec :
    (∀ (ex : Execution) (l : List (WidarConfig × BaseBand × SubBand)),
      iter_valid_unique_subbands ex = .ok l →
        ex.all_invalid = .ok l.isEmpty ∧
        (l = [] → ex.to_pandas
          = .error (.parseError "No valid subbands."))) ∧
    (∀ ex : Execution, (∀ g ∈ ex.configs_by_loif, g ≠ []) →
      (∀ g ∈ ex.configs_by_loif, ∀ cfg, g.head? = some cfg →
        ∀ bb ∈ cfg.vci.baseBands, ∀ sb ∈ bb.subBands,
          sb.is_valid = false) →
      iter_valid_unique_subbands ex = .ok [] ∧
      ex.all_invalid = .ok true ∧
      ex.to_pandas = .error (.parseError "No valid subbands.")) := by
  have part1 : ∀ (ex : Execution) (l : List (WidarConfig × BaseBand × SubBand)),
      iter_valid_unique_subbands ex = .ok l →
        ex.all_invalid = .ok l.isEmpty ∧
        (l = [] → ex.to_pandas
          = .error (.parseError "No valid subbands.")) := by
    intro ex l hl
    constructor
    · rw [Execution.all_invalid, hl]
      rfl
    · intro hnil
      subst hnil
      rw [Execution.to_pandas, hl]
      rfl
  refine ⟨part1, fun ex hne hinv => ?_⟩
  have hiter : iter_valid_unique_subbands ex = .ok [] := by
    rw [iter_valid_unique_subbands, heads_exMapM ex.configs_by_loif hne]
    simp only [ok_bind]
    congr 1
    apply flatMap_eq_nil_of_forall
    intro cfg hcfg
    rcases List.mem_filterMap.mp hcfg with ⟨g, hg, hhead⟩
    apply flatMap_eq_nil_of_forall
    intro bb hbb
    have hfilter : bb.subBands.filter (·.is_valid) = [] := by
      apply List.filter_eq_nil_iff.mpr
      intro sb hsb
      simp [hinv g hg cfg hhead bb hbb sb hsb]
    rw [hfilter]
    rfl
  rcases part1 ex [] hiter with ⟨h1, h2⟩
  exact ⟨hiter, h1, h2 rfl⟩

/-- C7 (witness): instantiates `all_invalid_spec` on the execution
whose only subband is flagged invalid: `all_invalid` is true and
`to_pandas` raises the "No valid subbands." `ParseError`. -/
theorem all_invalid_spec_witness :
    Execution.all_invalid exExecutionInvalid = .ok true ∧
    Execution.to_pandas exExecutionInvalid
      = .error (.parseError "No valid subbands.") := by
  have h := all_invalid_spec.2 exExecutionInvalid
    (by intro g hg; simp [exExecutionInvalid] at hg; subst hg; simp)
    (by
      intro g hg cfg hhead bb hbb sb hsb
      simp [exExecutionInvalid] at hg
      subst hg
      simp [List.head?] at hhead
      subst hhead
      simp [exConfigInvalid, exVciInvalid] at hbb
      subst hbb
      simp at hsb
      subst hsb
      rfl)
  exact ⟨h.2.1, h.2.2⟩

/-- C8 (counterexample): the claim is false as stated.  A `ValueError`
— e.g. the one `VCI.scanNum` raises on a configuration identifier with
no recoverable `_scan<digits>` suffix — is not caught by
`parse_exec_if_valid` (whose `except` clause names only `ParseError`, a
`RuntimeError` subclass): the batch driver propagates it instead of
warning and excluding the item. -/
theorem valueerror_not_caught_counterexample :
    pyScanNum "AB1234_config" = .error .valueError ∧
    parse_exec_if_valid "2013/01/02112B-154A" (.error .valueError)
      = .error .valueError ∧
    parse_exec_if_valid "2013/01/02112B-154A" (.error .valueError)
      ≠ .ok none := by
  refine ⟨rfl, rfl, ?_⟩
  simp [parse_exec_if_valid, KNOWN_INVALID]

/-- C8 (amended): the batch driver skips allow-listed names with a
warning, returns the execution on success, catches `ParseError`
(warning and excluding the item), and lets every other exception class
— in particular `ValueError` — propagate, aborting the batch. -/
theorem parse_exec_if_valid_amended (p : String)
    (r : Except PyErr Execution) :
    (p ∈ KNOWN_INVALID → parse_exec_if_valid p r = .ok none) ∧
    (p ∉ KNOWN_INVALID → ∀ msg, r = .error (.parseError msg) →
      parse_exec_if_valid p r = .ok none) ∧
    (p ∉ KNOWN_INVALID → ∀ ex, r = .ok ex →
      parse_exec_if_valid p r = .ok (some ex)) ∧
    (p ∉ KNOWN_INVALID → r = .error .valueError →
      parse_exec_if_valid p r = .error .valueError) := by
  refine ⟨fun hk => by simp [parse_exec_if_valid, hk],
    fun hk msg hr => by simp [parse_exec_if_valid, hk, hr],
    fun hk ex hr => by simp [parse_exec_if_valid, hk, hr],
    fun hk hr => by simp [parse_exec_if_valid, hk, hr]⟩

/-- C8 (witness): instantiates `parse_exec_if_valid_amended` on the
allow-listed name and on a `ParseError` outcome for an ordinary name;
both are excluded (`None`) without aborting. -/
theorem parse_exec_if_valid_amended_witness :
    parse_exec_if_valid "53714A-242A" (.error .valueError) = .ok none ∧
    parse_exec_if_valid "2012/01/68312A-304A"
      (.error (.parseError "Could not parse times.")) = .ok none := by
  constructor
  · exact (parse_exec_if_valid_amended "53714A-242A"
      (.error .valueError)).1 (by simp [KNOWN_INVALID])
  · exact (parse_exec_if_valid_amended "2012/01/68312A-304A"
      (.error (.parseError "Could not parse times."))).2.1
      (by simp [KNOWN_INVALID]) "Could not parse times." rfl

theorem exMapM_ok_mem {α β : Type} (f : α → Except PyErr β) :
    ∀ (l : List α) (ys : List β), exMapM f l = .ok ys →
      ∀ y ∈ ys, ∃ x ∈ l, f x = .ok y := by
  intro l
  induction l with
  | nil =>
    intro ys h y hy
    rw [exMapM] at h
    simp at h
    subst h
    simp at hy
  | cons a as ih =>
    intro ys h y hy
    rw [exMapM] at h
    cases hfa : f a with
    | error e => rw [hfa] at h; simp at h
    | ok z =>
      rw [hfa] at h
      cases has : exMapM f as with
      | error e => rw [has] at h; simp at h
      | ok zs =>
        rw [has] at h
        simp at h
        rw [← h] at hy
        rcases List.mem_cons.mp hy with rfl | hy'
        · exact ⟨a, List.mem_cons_self _ _, hfa⟩
        · rcases ih zs has y hy' with ⟨x, hx, hfx⟩
          exact ⟨x, List.mem_cons_of_mem _ hx, hfx⟩

theorem exMapM_ok_length {α β : Type} (f : α → Except PyErr β) :
    ∀ (l : List α) (ys : List β), exMapM f l = .ok ys →
      ys.length = l.length := by
  intro l
  induction l with
  | nil =>
    intro ys h
    rw [exMapM] at h
    simp at h
    subst h
    rfl
  | cons a as ih =>
    intro ys h
    rw [exMapM] at h
    cases hfa : f a with
    | error e => rw [hfa] at h; simp at h
    | ok z =>
      rw [hfa] at h
      cases has : exMapM f as with
      | error e => rw [has] at h; simp at h
      | ok zs =>
        rw [has] at h
        simp at h
        rw [← h, List.length_cons, ih zs has]
        rfl

theorem exMapM_ok_zip {α β : Type} (f : α → Except PyErr β) :
    ∀ (l : List α) (ys : List β), exMapM f l = .ok ys →
      ∀ p ∈ ys.zip l, f p.2 = .ok p.1 := by
  intro l
  induction l with
  | nil =>
    intro ys h p hp
    rw [exMapM] at h
    simp at h
    subst h
    simp at hp
  | cons a as ih =>
    intro ys h p hp
    rw [exMapM] at h
    cases hfa : f a with
    | error e => rw [hfa] at h; simp at h
    | ok z =>
      rw [hfa] at h
      cases has : exMapM f as with
      | error e => rw [has] at h; simp at h
      | ok zs =>
        rw [has] at h
        simp at h
        rw [← h, List.zip_cons_cons] at hp
        rcases List.mem_cons.mp hp with rfl | hp'
        · exact hfa
        · exact ih zs has p hp'

theorem pyDictFold_mem {κ α : Type} [DecidableEq κ] (k : κ) (v : α) :
    ∀ (l : List (κ × α)) (acc : Option α),
      l.foldl (fun acc p => if p.1 = k then some p.2 else acc) acc
        = some v →
      (k, v) ∈ l ∨ acc = some v := by
  intro l
  induction l with
  | nil => intro acc h; exact Or.inr h
  | cons p t ih =>
    obtain ⟨pk, pv⟩ := p
    intro acc h
    rw [List.foldl_cons] at h
    rcases ih _ h with hm | hacc
    · exact Or.inl (List.mem_cons_of_mem _ hm)
    · by_cases hp : pk = k
      · rw [if_pos (by simpa using hp)] at hacc
        have hv : pv = v := by injection hacc
        subst hp
        subst hv
        exact Or.inl (List.mem_cons_self _ _)
      · rw [if_neg (by simpa using hp)] at hacc
        exact Or.inr hacc

theorem pyDictGet_mem {κ α : Type} [DecidableEq κ] {l : List (κ × α)}
    {k : κ} {v : α} (h : pyDictGet l k = some v) : (k, v) ∈ l := by
  rcases pyDictFold_mem k v l none h with hm | hacc
  · exact hm
  · exact absurd hacc (by simp)

theorem pyDictFold_isSome {κ α : Type} [DecidableEq κ] (k : κ) :
    ∀ (l : List (κ × α)) (acc : Option α),
      (k ∈ l.map Prod.fst ∨ acc.isSome) →
      (l.foldl (fun acc p => if p.1 = k then some p.2 else acc)
        acc).isSome := by
  intro l
  induction l with
  | nil =>
    intro acc h
    rcases h with h | h
    · simp at h
    · exact h
  | cons p t ih =>
    intro acc h
    rw [List.foldl_cons]
    apply ih
    by_cases hp : p.1 = k
    · right
      rw [if_pos hp]
      rfl
    · rcases h with hm | hs
      · rw [List.map_cons] at hm
        rcases List.mem_cons.mp hm with heq | hm'
        · exact absurd heq.symm hp
        · exact Or.inl hm'
      · right
        rw [if_neg hp]
        exact hs

theorem pyDictGet_isSome {κ α : Type} [DecidableEq κ]
    {l : List (κ × α)} {k : κ} (h : k ∈ l.map Prod.fst) :
    ∃ v, pyDictGet l k = some v :=
  Option.isSome_iff_exists.mp (pyDictFold_isSome k l none (Or.inl h))

/-- C4: (1) every entry of the assembled `configs_by_scan` satisfies
`configs_by_scan[i].scan.index = i`; (2) the VCI document resolved for
a scan index `i` has the greatest `scan_num ≤ i` among the available
documents; (3) when no document has `scan_num ≤ i` for some scan `i`,
`get_vci_for_scans` fails fast with the `ValueError` of `max([])`
instead of picking an arbitrary document. -/
theorem get_vci_for_scans_spec :
    (∀ (scans : List EvlaScan) (setups : List (String × LoIfSetup))
       (offsets : List (String × LoIfOffset)) (vbs : List (ℕ × VCIfile))
       (cbs : List (ℕ × WidarConfig)) (i : ℕ) (w : WidarConfig),
      mkConfigsByScan scans setups offsets vbs = .ok cbs →
      (i, w) ∈ cbs → w.scan.ix = i) ∧
    (∀ (scans : List EvlaScan) (vcis : List VCIfile)
       (m : List (ℕ × VCIfile)) (i : ℕ) (v : VCIfile),
      get_vci_for_scans scans vcis = .ok m → (i, v) ∈ m →
      ∃ n, v.scanNum = .ok n ∧ n ≤ i ∧
        ∀ w ∈ vcis, ∀ k, w.scanNum = .ok k → k ≤ i → k ≤ n) ∧
    (∀ (scans : List EvlaScan) (vcis : List VCIfile) (nums : List ℕ)
       (s : EvlaScan),
      exMapM VCIfile.scanNum vcis = .ok nums → s ∈ scans →
      (∀ n ∈ nums, s.ix < n) →
      get_vci_for_scans scans vcis = .error .valueError) := by
  refine ⟨?_, ?_, ?_⟩
  · -- (1) the assembled record for key `i` holds the scan of index `i`.
    intro scans setups offsets vbs cbs i w h hmem
    rw [mkConfigsByScan] at h
    rcases exMapM_ok_mem _ scans cbs h (i, w) hmem with ⟨x, _, hbody⟩
    cases h1 : pyDictGet setups x.loif with
    | none => rw [h1] at hbody; simp at hbody
    | some su =>
      rw [h1] at hbody
      cases h2 : pyDictGet offsets x.loif with
      | none => rw [h2] at hbody; simp at hbody
      | some off =>
        rw [h2] at hbody
        cases h3 : pyDictGet vbs x.ix with
        | none => rw [h3] at hbody; simp at hbody
        | some v =>
          rw [h3] at hbody
          simp at hbody
          rw [← hbody.2, ← hbody.1]
  · -- (2) the resolved document's scan number is the greatest ≤ i.
    intro scans vcis m i v h hmem
    rw [get_vci_for_scans] at h
    cases hn : exMapM VCIfile.scanNum vcis with
    | error e => rw [hn] at h; simp at h
    | ok nums =>
      rw [hn] at h
      simp only [ok_bind] at h
      rcases exMapM_ok_mem _ scans m h (i, v) hmem with ⟨s, _, hbody⟩
      cases hmax : (nums.filter (· ≤ s.ix)).max? with
      | none => rw [hmax] at hbody; simp at hbody
      | some mval =>
        rw [hmax] at hbody
        have hbody2 : (match pyDictGet (nums.zip vcis) mval with
            | some v => Except.ok (s.ix, v)
            | none => Except.error PyErr.keyError)
            = Except.ok (i, v) := hbody
        cases hget : pyDictGet (nums.zip vcis) mval with
        | none => rw [hget] at hbody2; simp at hbody2
        | some v' =>
          rw [hget] at hbody2
          simp at hbody2
          obtain ⟨hix, hv⟩ := hbody2
          subst hix
          subst hv
          have hmax' := hmax
          rw [List.max?_eq_some_iff (fun a => le_refl a)
            (fun a b => max_choice a b) (fun a b c => Nat.max_le)] at hmax'
          obtain ⟨hmem_f, hub⟩ := hmax'
          have hmval : mval ∈ nums ∧ mval ≤ s.ix := by
            simpa using List.mem_filter.mp hmem_f
          have hpair := pyDictGet_mem hget
          have hscan : v'.scanNum = .ok mval :=
            exMapM_ok_zip _ vcis nums hn (mval, v') hpair
          refine ⟨mval, hscan, hmval.2, ?_⟩
          intro w hw k hk hki
          rcases exMapM_ok_forall _ vcis nums hn w hw with ⟨y, hy, hfy⟩
          have hyk : y = k := by
            rw [hfy] at hk
            injection hk
          subst hyk
          exact hub y (List.mem_filter.mpr ⟨hy, by simpa using hki⟩)
  · -- (3) a scan below every available scan number fails fast.
    intro scans vcis nums s hn hs habove
    rw [get_vci_for_scans, hn]
    simp only [ok_bind]
    induction scans with
    | nil => simp at hs
    | cons a rest ih =>
      rw [exMapM]
      rcases List.mem_cons.mp hs with rfl | hs'
      · have hfil : nums.filter (· ≤ s.ix) = [] := by
          apply List.filter_eq_nil_iff.mpr
          intro n hn'
          simpa using not_le.mpr (habove n hn')
        rw [hfil]
        rfl
      · cases hfa : (nums.filter (· ≤ a.ix)).max? with
        | none => rfl
        | some mval =>
          have hmval : mval ∈ nums := by
            have := List.max?_mem (fun a b => max_choice a b) hfa
            simpa using (List.mem_filter.mp this).1
          have hkeys : mval ∈ (nums.zip vcis).map Prod.fst := by
            rw [List.map_fst_zip]
            · exact hmval
            · rw [exMapM_ok_length _ vcis nums hn]
          rcases pyDictGet_isSome hkeys with ⟨v, hv⟩
          have hgoal : (do
              let y ← (match pyDictGet (nums.zip vcis) mval with
                | some v => Except.ok (a.ix, v)
                | none => Except.error PyErr.keyError)
              let ys ← exMapM (fun s =>
                match (nums.filter (· ≤ s.ix)).max? with
                | none => Except.error PyErr.valueError
                | some m =>
                  match pyDictGet (nums.zip vcis) m with
                  | some v => Except.ok (s.ix, v)
                  | none => Except.error PyErr.keyError) rest
              Except.ok (y :: ys)) = Except.error PyErr.valueError := by
            rw [hv]
            simp only [ok_bind]
            rw [ih hs']
            rfl
          exact hgoal

/-- C4 (witness): instantiates `get_vci_for_scans_spec` on one scan of
index 1 and one VCI document with `configId = "obs.xml_scan1"`
(`scan_num = 1`): resolution succeeds and the resolved document's scan
number is 1 ≤ 1. -/
theorem get_vci_for_scans_spec_witness :
    get_vci_for_scans [exScan] [exVci] = .ok [(1, exVci)] ∧
    exVci.scanNum = .ok 1 ∧ (1 : ℕ) ≤ 1 := by
  have hrun : get_vci_for_scans [exScan] [exVci] = .ok [(1, exVci)] := rfl
  have h := get_vci_for_scans_spec.2.1 [exScan] [exVci] [(1, exVci)] 1 exVci
    hrun (List.mem_singleton.mpr rfl)
  rcases h with ⟨n, hn, hle, -⟩
  have hn1 : exVci.scanNum = Except.ok 1 := rfl
  have heq : n = 1 := by
    have h2 := hn.symm.trans hn1
    injection h2
  subst heq
  exact ⟨hrun, hn, hle⟩

theorem findBlockLoif_carry (loif : Option String) :
    ∀ (pre : List ScanLine) (b : ScanLine) (post : List ScanLine),
      b.isBlank = true →
      (∀ l ∈ pre, l.isBlank = false ∧ l.loifMatch = none) →
      findBlockLoif loif (pre ++ b :: post) = .ok loif := by
  intro pre
  induction pre with
  | nil =>
    intro b post hb _
    rw [List.nil_append, findBlockLoif, if_pos hb]
  | cons l pre ih =>
    intro b post hb hpre
    have hl := hpre l (List.mem_cons_self _ _)
    rw [List.cons_append, findBlockLoif, if_neg (by simp [hl.1]), hl.2]
    exact ih b post hb (fun x hx => hpre x (List.mem_cons_of_mem _ hx))

theorem scanLoop_skip (loif intents : Option String)
    (pre0 : List ScanLine) (h : ∀ l ∈ pre0, l.scanMatch = none)
    (rest : List ScanLine) :
    scanLoop loif intents (pre0 ++ rest) = scanLoop loif intents rest := by
  induction pre0 with
  | nil => rw [List.nil_append]
  | cons l p ih =>
    rw [List.cons_append, scanLoop,
        h l (List.mem_cons_self _ _)]
    exact ih (fun x hx => h x (List.mem_cons_of_mem _ hx))

theorem scanLoop_cons_scan (loif intents : Option String)
    (line next next2 : ScanLine) (tail : List ScanLine)
    (ix : ℕ) (fname : String) (dbid : ℕ) (times : ℚ × ℚ × ℚ)
    (s0 : String)
    (hscan : line.scanMatch = some (ix, fname, dbid))
    (htime : next.timeMatch = some times)
    (hint : next2.intentMatch = some s0) :
    scanLoop loif intents (line :: next :: next2 :: tail)
      = match findBlockLoif loif (line :: next :: next2 :: tail) with
        | .error e => .error e
        | .ok none =>
          .error (.parseError "Invalid loifName/loifCounts convention.")
        | .ok (some n) =>
          match scanLoop (some n) (some s0) (next :: next2 :: tail) with
          | .error e => .error e
          | .ok more =>
            .ok ({ ix := ix, field := fname, db_id := dbid,
                   loif := "loif" ++ n,
                   t_total := times.1, t_slew := times.2.1,
                   t_onsrc := times.2.2,
                   intents := pySplit s0 } :: more) := by
  rw [scanLoop]
  simp only [hscan]
  simp only [htime]
  simp only [hint]

/-- C5: in scan-sequence parsing, a scan block with no explicit
LOIF-selection line before its block boundary (the next blank line) is
assigned the carried LOIF id of the preceding scan block; when the
carried state is still `NULL` (the very first scan block, any earlier
lines being non-scan lines), parsing raises
`ParseError("Invalid loifName/loifCounts convention.")` instead of
assigning a default. -/
theorem scan_loif_carry_forward :
    (∀ (prevN s0 : String) (ints : Option String)
       (line next next2 : ScanLine) (tail pre post : List ScanLine)
       (b : ScanLine) (ix : ℕ) (fname : String) (dbid : ℕ)
       (times : ℚ × ℚ × ℚ),
      line.scanMatch = some (ix, fname, dbid) →
      next.timeMatch = some times →
      next2.intentMatch = some s0 →
      line :: next :: next2 :: tail = pre ++ b :: post →
      b.isBlank = true →
      (∀ l ∈ pre, l.isBlank = false ∧ l.loifMatch = none) →
      ∀ scans,
        scanLoop (some prevN) ints (line :: next :: next2 :: tail)
          = .ok scans →
        ∃ s rest', scans = s :: rest' ∧ s.loif = "loif" ++ prevN) ∧
    (∀ (s0 : String) (pre0 : List ScanLine)
       (line next next2 : ScanLine) (tail pre post : List ScanLine)
       (b : ScanLine) (ix : ℕ) (fname : String) (dbid : ℕ)
       (times : ℚ × ℚ × ℚ),
      (∀ l ∈ pre0, l.scanMatch = none) →
      line.scanMatch = some (ix, fname, dbid) →
      next.timeMatch = some times →
      next2.intentMatch = some s0 →
      line :: next :: next2 :: tail = pre ++ b :: post →
      b.isBlank = true →
      (∀ l ∈ pre, l.isBlank = false ∧ l.loifMatch = none) →
      evlaScansFromLines (pre0 ++ line :: next :: next2 :: tail)
        = .error (.parseError "Invalid loifName/loifCounts convention.")) := by
  constructor
  · intro prevN s0 ints line next next2 tail pre post b ix fname dbid times
      hscan htime hint hsplit hblank hpre scans hok
    rw [scanLoop_cons_scan (some prevN) ints line next next2 tail
      ix fname dbid times s0 hscan htime hint] at hok
    rw [hsplit, findBlockLoif_carry (some prevN) pre b post hblank hpre]
      at hok
    simp only [] at hok
    cases hrec : scanLoop (some prevN) (some s0)
        (next :: next2 :: tail) with
    | error e =>
      simp only [hrec] at hok
      exact absurd hok (by simp)
    | ok more =>
      simp only [hrec] at hok
      have h2 := hok
      injection h2 with h3
      refine ⟨_, more, h3.symm, rfl⟩
  · intro s0 pre0 line next next2 tail pre post b ix fname dbid times
      hpre0 hscan htime hint hsplit hblank hpre
    rw [evlaScansFromLines,
        scanLoop_skip none none pre0 hpre0,
        scanLoop_cons_scan none none line next next2 tail
          ix fname dbid times s0 hscan htime hint,
        hsplit, findBlockLoif_carry none pre b post hblank hpre]

/-- C5 (witness): instantiates `scan_loif_carry_forward` on a concrete
scan block with no LOIF line before its blank boundary: with carried
LOIF id `"02"` the parsed scan inherits `loif02`; as the very first
block (carried state `NULL`) it is a `ParseError`. -/
theorem scan_loif_carry_forward_witness :
    scanLoop (some "02") (some "PRIOR") exBlockLines
      = .ok [exCarriedScan] ∧
    exCarriedScan.loif = "loif02" ∧
    evlaScansFromLines exBlockLines
      = .error (.parseError "Invalid loifName/loifCounts convention.") := by
  have hrun : scanLoop (some "02") (some "PRIOR") exBlockLines
      = .ok [exCarriedScan] := rfl
  have hA := scan_loif_carry_forward.1 "02" "CALIBRATE_FLUX" (some "PRIOR")
    exScanHeaderLine exTimeLine exIntentLine [exBlankLine]
    [exScanHeaderLine, exTimeLine, exIntentLine] [] exBlankLine
    1 "J1234+5678" 7 (10, 2, 8) rfl rfl rfl rfl rfl
    (by decide) [exCarriedScan] hrun
  rcases hA with ⟨s, rest', hsr, hsl⟩
  have hs : s = exCarriedScan ∧ rest' = ([] : List EvlaScan) := by
    rw [List.cons.injEq] at hsr
    exact ⟨hsr.1.symm, hsr.2.symm⟩
  have hB := scan_loif_carry_forward.2 "CALIBRATE_FLUX" []
    exScanHeaderLine exTimeLine exIntentLine [exBlankLine]
    [exScanHeaderLine, exTimeLine, exIntentLine] [] exBlankLine
    1 "J1234+5678" 7 (10, 2, 8) (by simp) rfl rfl rfl rfl rfl
    (by decide)
  refine ⟨hrun, ?_, by simpa using hB⟩
  rw [← hs.1]
  exact hsl

end OstParser
